import Mathlib

/-!
Shallow embedding of the core decision engine of the Across relayer
(ProfitClient, InventoryClient, LineaWethBridge) and proofs about the
spec claims.  Monetary quantities are ethers `BigNumber`s: arbitrary
precision signed integers whose `div` truncates toward zero and faults
on a zero divisor.  External collaborators (token-balance client,
hub-pool client, bundle-data client, cross-chain transfer client, price
feeds, gas simulation) are fields of an environment record; thrown
JavaScript errors are `Except.error`.
-/

namespace Relayer

/-- ethers `BigNumber.div`: arbitrary-precision integer division truncating
toward zero (the zero-divisor fault is modelled by `bnDivE` where it is
reachable). -/
def bnDiv (a b : Int) : Int := a.tdiv b

/-- ethers `BigNumber.div` where the divisor may be zero: a zero divisor
faults (throws). -/
def bnDivE (a b : Int) : Except String Int :=
  if b = 0 then .error "division-by-zero" else .ok (bnDiv a b)

/-- `fixedPointAdjustment` : percentages and prices are 18-decimal scaled. -/
def fixedPoint : Int := 10 ^ 18

/-- `bnUint256Max` sentinel. -/
def uint256Max : Int := 2 ^ 256 - 1

/-- `MAX_UINT_VAL` constant used by the excess running balance computation. -/
def MAX_UINT_VAL : Int := 2 ^ 256 - 1

/-- Modelled from the spec: `sdkUtils.ConvertDecimals(from, to)` multiplies by
`10 ^ (to - from)` when `to ≥ from` and otherwise divides (truncating). -/
def convertDecimals (fromDec toDec : Nat) (x : Int) : Int :=
  if fromDec ≤ toDec then x * 10 ^ (toDec - fromDec) else bnDiv x (10 ^ (fromDec - toDec))

/-- The fields of an Across `Deposit` that the profit engine and the
inventory manager read.  Token addresses and chain ids are integers;
`messageEmpty` is `isMessageEmpty(resolveDepositMessage(deposit))`. -/
structure Deposit where
  depositId : Int
  originChainId : Int
  destinationChainId : Int
  inputToken : Int
  outputToken : Int
  inputAmount : Int
  outputAmount : Int
  updatedOutputAmount : Option Int
  messageEmpty : Bool
  fromLiteChain : Bool
  toLiteChain : Bool
deriving Repr, DecidableEq

/-- Modelled from the spec: `depositForcesOriginChainRepayment` (a util that
is not part of the packaged sources).  `fromLiteChain` forces repayment on
the origin chain. -/
def depositForcesOriginChainRepayment (d : Deposit) : Bool := d.fromLiteChain

/-- `TokenBalanceConfig` from the inventory configuration.  Optional fields
are absent when the operator did not configure them. -/
structure TokenBalanceConfig where
  targetPct : Int
  thresholdPct : Int
  targetOverageBuffer : Option Int := none
  withdrawExcessPeriod : Option Int := none
deriving Repr, DecidableEq

/-- A per-L1-token entry of `inventoryConfig.tokenConfig`: either a direct
chain map or an alias config keyed by l2 token first. -/
inductive TokenCfgEntry where
  | direct (chainMap : List (Int × TokenBalanceConfig))
  | aliased (aliasMap : List (Int × List (Int × TokenBalanceConfig)))
deriving Repr, DecidableEq

/-- `DEFAULT_TOKEN_OVERAGE = toBNWei("1.5")`. -/
def DEFAULT_TOKEN_OVERAGE : Int := 15 * 10 ^ 17

/-- The environment of an `InventoryClient`: its configuration plus the
external collaborators it reads (token-balance client, hub-pool client,
config-store client, bundle-data client, cross-chain transfer client,
adapter manager).  Collaborator reads are arbitrary functions. -/
structure InvEnv where
  hubChainId : Int
  chainIdList : List Int
  prioritizeLpUtilization : Bool
  tokenConfig : List (Int × TokenCfgEntry)
  /-- `getTokenInfo(l1Token, hubChainId).decimals`. -/
  l1TokenDecimals : Int → Nat
  /-- `hubPoolClient.getTokenInfoForAddress(token, chainId).decimals`. -/
  tokenDecimals : Int → Int → Nat
  /-- `tokenClient.getBalance(chainId, l2Token)`. -/
  balance : Int → Int → Int
  /-- `tokenClient.getShortfallTotalRequirement(chainId, l2Token)`. -/
  shortfall : Int → Int → Int
  /-- `crossChainTransferClient.getOutstandingCrossChainTransferAmount`
  narrowed to one l2 token: `(chainId, l1Token, l2Token) → amount`. -/
  outstandingTransfer : Int → Int → Int → Int
  /-- Modelled from the spec: the `getRemoteTokenForL1Token` utility (the
  protocol's pool-rebalance route mapping) for non-hub chains; `none` when
  the token has no mapping on the chain. -/
  remoteToken : Int → Int → Option Int
  /-- `hubPoolClient.areTokensEquivalent(inputToken, originChainId,
  outputToken, destinationChainId)`. -/
  areTokensEquivalent : Int → Int → Int → Int → Bool
  /-- `hubPoolClient.l2TokenHasPoolRebalanceRoute(l2Token, chainId)` (the
  block-pinned variant is evaluated at the latest searched height and is
  modelled by the same function). -/
  l2TokenHasPoolRebalanceRoute : Int → Int → Bool
  /-- `hubPoolClient.l2TokenEnabledForL1Token(l1Token, chainId)` (again the
  block-pinned variant coincides at the latest height). -/
  l2TokenEnabledForL1Token : Int → Int → Bool
  /-- `hubPoolClient.getL1TokenForL2TokenAtBlock(l2Token, chainId)`. -/
  getL1TokenForL2Token : Int → Int → Int
  /-- Modelled from the spec: the `getL1TokenAddress(l2Token, chainId)`
  utility; `none` models the throw for tokens missing from
  `TOKEN_SYMBOLS_MAP`. -/
  getL1TokenAddressMap : Int → Int → Option Int
  /-- Modelled from the spec: `sdkUtils.invalidOutputToken(deposit)`, the
  output-token classification check. -/
  invalidOutputToken : Deposit → Bool
  /-- Modelled from the spec: `repaymentChainCanBeQuicklyRebalanced` — the
  origin is the hub chain or a chain served by a fast external on/off-ramp. -/
  quicklyRebalanced : Deposit → Bool
  /-- Modelled from the spec: the `SLOW_WITHDRAWAL_CHAINS` constant. -/
  slowWithdrawalChains : List Int
  /-- `bundleDataClient.getTotalRefund(refunds, relayer, chainId,
  destinationToken)`, in the l2 token's decimals. -/
  bundleRefund : Int → Int → Int
  /-- `configStoreClient.getSpokeTargetBalancesForBlock(l1Token, chainId).target`. -/
  spokeTarget : Int → Int → Int
  /-- The `absLatestRunningBalance` produced by `_getLatestRunningBalances`
  for `(l1Token, chainId)` (an aggregate of hub-pool reads). -/
  absRunningBalance : Int → Int → Int
  /-- `adapterManager.adapters[chainId].isSupportedL2Bridge(l1Token)`. -/
  isSupportedL2Bridge : Int → Int → Bool
  /-- `adapterManager.getL2PendingWithdrawalAmount(period, chainId, relayer,
  l2Token)`, in the l2 token's decimals. -/
  pendingWithdrawalAmount : Int → Int → Int → Int

/-- `InventoryClient.getTokenConfig`: resolve the token balance config for
`(l1Token, chainId, l2Token)`.  The assert fires when an alias config is
queried without an l2 token. -/
def getTokenConfig (env : InvEnv) (l1Token chainId : Int) (l2Token : Option Int) :
    Except String (Option TokenBalanceConfig) :=
  match env.tokenConfig.lookup l1Token with
  | none => .ok none
  | some (.direct chainMap) => .ok (chainMap.lookup chainId)
  | some (.aliased aliasMap) =>
    match l2Token with
    | none => .error "Cannot resolve ambiguous token config"
    | some t => .ok ((aliasMap.lookup t).bind (fun chainMap => chainMap.lookup chainId))

/-- `InventoryClient.isInventoryManagementEnabled`: the token config exists
and has at least one key. -/
def isInventoryManagementEnabled (env : InvEnv) : Bool := !env.tokenConfig.isEmpty

/-- `InventoryClient._l1TokenEnabledForChain`. -/
def l1TokenEnabledForChain (env : InvEnv) (l1Token chainId : Int) : Bool :=
  match env.tokenConfig.lookup l1Token with
  | none => false
  | some (.direct chainMap) => (chainMap.lookup chainId).isSome
  | some (.aliased aliasMap) => aliasMap.any (fun e => (e.2.lookup chainId).isSome)

/-- `InventoryClient.getRemoteTokenForL1Token` (method): the l1 token itself
on the hub chain, else the pool-rebalance route mapping. -/
def getRemoteTokenForL1Token (env : InvEnv) (l1Token chainId : Int) : Option Int :=
  if chainId = env.hubChainId then some l1Token else env.remoteToken l1Token chainId

/-- `InventoryClient.getRemoteTokensForL1Token`. -/
def getRemoteTokensForL1Token (env : InvEnv) (l1Token chainId : Int) : List Int :=
  if chainId = env.hubChainId then [l1Token]
  else
    match env.tokenConfig.lookup l1Token with
    | none => []
    | some (.aliased aliasMap) =>
      (aliasMap.filter (fun e => (e.2.lookup chainId).isSome)).map (fun e => e.1)
    | some (.direct _) =>
      match getRemoteTokenForL1Token env l1Token chainId with
      | none => []
      | some t => [t]

/-- `InventoryClient.getBalanceOnChain` with an `l2Token` argument: the
l2 balance converted to l1 decimals plus the pending inbound cross-chain
transfer amount for that l2 token. -/
def getBalanceOnChainL2 (env : InvEnv) (chainId l1Token l2Token : Int) : Int :=
  convertDecimals (env.tokenDecimals l2Token chainId) (env.l1TokenDecimals l1Token)
      (env.balance chainId l2Token)
    + env.outstandingTransfer chainId l1Token l2Token

/-- Modelled from the spec: the cross-chain transfer client's outstanding
amount for `(relayer, chainId, l1Token)` without an l2 token narrows to the
total over the tracked equivalent l2 tokens on that chain. -/
def aggregateOutstandingTransfer (env : InvEnv) (chainId l1Token : Int) : Int :=
  ((getRemoteTokensForL1Token env l1Token chainId).map
    (fun t => env.outstandingTransfer chainId l1Token t)).sum

/-- `InventoryClient.getBalanceOnChain` without an `l2Token` argument: sum of
the converted balances of every equivalent l2 token plus the aggregate
pending inbound transfer amount. -/
def getBalanceOnChain (env : InvEnv) (chainId l1Token : Int) : Int :=
  ((getRemoteTokensForL1Token env l1Token chainId).map
    (fun t => convertDecimals (env.tokenDecimals t chainId) (env.l1TokenDecimals l1Token)
      (env.balance chainId t))).sum
    + aggregateOutstandingTransfer env chainId l1Token

/-- `InventoryClient.getCumulativeBalance`: total over all enabled chains. -/
def getCumulativeBalance (env : InvEnv) (l1Token : Int) : Int :=
  (env.chainIdList.map (fun chainId => getBalanceOnChain env chainId l1Token)).sum

/-- `InventoryClient.getCurrentAllocationPct`: the balance (including
pending transfers, net of the chain's shortfall) of `(chainId, l2Token)`
as an 18-decimal fraction of the cumulative balance; 0 when the cumulative
balance is 0. -/
def getCurrentAllocationPct (env : InvEnv) (l1Token chainId l2Token : Int) : Int :=
  let cumulativeBalance := getCumulativeBalance env l1Token
  if cumulativeBalance = 0 then 0
  else
    let shortfall := convertDecimals (env.tokenDecimals l2Token chainId)
      (env.l1TokenDecimals l1Token) (env.shortfall chainId l2Token)
    let currentBalance := getBalanceOnChainL2 env chainId l1Token l2Token - shortfall
    bnDiv (currentBalance * fixedPoint) cumulativeBalance

/-- `InventoryClient._getExcessRunningBalancePcts` per-chain computation: the
percentage by which the post-relay excess running balance exceeds the spoke
pool target. -/
def excessRunningBalancePct (target excess refundAmount : Int) : Int :=
  let excessPostRelay := excess - refundAmount
  if target ≥ excessPostRelay then 0
  else if target = 0 then MAX_UINT_VAL
  else bnDiv ((excessPostRelay - target) * fixedPoint) (target.natAbs : Int)

/-- The excess percentage as the spec words it: saturate to MAX on a zero
target with positive post-relay excess, 0 when the target covers the
post-relay excess, else `(postExcess - target) * 10^18 / abs target`, where
the post-relay excess is `excess - refundAmount`. -/
def excessRunningBalancePctSpec (target excess refundAmount : Int) : Int :=
  let postExcess := excess - refundAmount
  if target = 0 ∧ postExcess > target then MAX_UINT_VAL
  else if target ≥ postExcess then 0
  else bnDiv ((postExcess - target) * fixedPoint) (target.natAbs : Int)

/-- `InventoryClient.canTakeDestinationChainRepayment`. -/
def canTakeDestinationChainRepayment (env : InvEnv) (d : Deposit) : Bool :=
  if depositForcesOriginChainRepayment d then false
  else if !env.l2TokenHasPoolRebalanceRoute d.inputToken d.originChainId then false
  else env.l2TokenEnabledForL1Token
    (env.getL1TokenForL2Token d.inputToken d.originChainId) d.destinationChainId

/-- `InventoryClient.validateOutputToken`: pool-rebalance route equivalence,
falling back to the hardcoded `getL1TokenAddress` mapping (whose throw for
unknown tokens is caught and becomes `false`). -/
def validateOutputToken (env : InvEnv) (d : Deposit) : Bool :=
  if env.areTokensEquivalent d.inputToken d.originChainId d.outputToken d.destinationChainId
  then true
  else
    match env.getL1TokenAddressMap d.inputToken d.originChainId,
        env.getL1TokenAddressMap d.outputToken d.destinationChainId with
    | some a, some b => a == b
    | _, _ => false

/-- `InventoryClient.getSlowWithdrawalRepaymentChains`. -/
def getSlowWithdrawalRepaymentChains (env : InvEnv) (l1Token : Int) : List Int :=
  env.slowWithdrawalChains.filter (fun chainId =>
    l1TokenEnabledForChain env l1Token chainId && env.l2TokenEnabledForL1Token l1Token chainId)

/-- `InventoryClient.getPossibleRepaymentChainIds`: insertion-ordered set of
origin, destination (when valid), enabled slow-withdrawal chains and the hub
chain.  `getL1TokenAddress` throws for unknown input tokens. -/
def getPossibleRepaymentChainIds (env : InvEnv) (d : Deposit) : Except String (List Int) := do
  let chainIds : List Int := [d.originChainId]
  if depositForcesOriginChainRepayment d then return chainIds
  let chainIds := if canTakeDestinationChainRepayment env d ∧ ¬ chainIds.contains d.destinationChainId
    then chainIds ++ [d.destinationChainId] else chainIds
  let chainIds ←
    if isInventoryManagementEnabled env then do
      match env.getL1TokenAddressMap d.inputToken d.originChainId with
      | none => throw "getL1TokenAddress: token not found in TOKEN_SYMBOLS_MAP"
      | some l1Token =>
        pure ((getSlowWithdrawalRepaymentChains env l1Token).foldl (fun acc chainId =>
          if env.l2TokenEnabledForL1Token l1Token chainId ∧ ¬ acc.contains chainId
          then acc ++ [chainId] else acc) chainIds)
    else pure chainIds
  let chainIds := if chainIds.contains env.hubChainId then chainIds else chainIds ++ [env.hubChainId]
  return chainIds

/-- The per-chain upcoming bundle refund (`getBundleRefunds` entry): zero
when the l1 token has no destination token on the chain, else the total
refund converted to l1 decimals. -/
def totalRefundsPerChain (env : InvEnv) (l1Token chainId : Int) : Int :=
  match getRemoteTokenForL1Token env l1Token chainId with
  | none => 0
  | some t =>
    convertDecimals (env.tokenDecimals t chainId) (env.l1TokenDecimals l1Token)
      (env.bundleRefund chainId t)

/-- Lookup of the `totalRefundsPerChain` record in the repayment loop:
chains outside the enabled chain list have no key and fall back to zero. -/
def totalRefundsLookup (env : InvEnv) (l1Token chainId : Int) : Int :=
  if env.chainIdList.contains chainId then totalRefundsPerChain env l1Token chainId else 0

/-- Stable ordered insertion: `x` goes before the first element it compares
before-or-equal to. -/
def orderedInsert {α : Type} (le : α → α → Bool) (x : α) : List α → List α
  | [] => [x]
  | y :: ys => if le x y then x :: y :: ys else y :: orderedInsert le x ys

/-- Stable insertion sort, modelling the stable JavaScript `Array.sort`. -/
def insertionSort {α : Type} (le : α → α → Bool) : List α → List α
  | [] => []
  | x :: xs => orderedInsert le x (insertionSort le xs)

/-- `getExcessRunningBalancePcts`: each evaluated slow-withdrawal chain with
its excess running balance percentage (the running balances come from
`_getLatestRunningBalances`, modelled by `env.absRunningBalance`). -/
def getExcessRunningBalancePcts (env : InvEnv) (l1Token refundAmountInL1TokenDecimals : Int)
    (chainsToEvaluate : List Int) : List (Int × Int) :=
  chainsToEvaluate.map (fun chainId =>
    (chainId, excessRunningBalancePct (env.spokeTarget l1Token chainId)
      (env.absRunningBalance l1Token chainId) refundAmountInL1TokenDecimals))

/-- The ordered candidate list (`chainsToEvaluate`) of
`determineRefundChainId`: slow-withdrawal chains with positive excess first
(JavaScript objects iterate integer keys ascending, then a stable sort by
descending percentage), then origin for lite destinations, then the
destination, then the origin. -/
def buildChainsToEvaluate (env : InvEnv) (d : Deposit)
    (l1Token inputAmountInL1TokenDecimals : Int) : List Int :=
  let base : List Int :=
    if ¬ depositForcesOriginChainRepayment d ∧ env.prioritizeLpUtilization then
      let pcts := getExcessRunningBalancePcts env l1Token inputAmountInL1TokenDecimals
        (getSlowWithdrawalRepaymentChains env l1Token)
      let entries := insertionSort (fun a b => decide (a.1 ≤ b.1)) pcts
      ((insertionSort (fun a b => decide (b.2 ≤ a.2))
        (entries.filter (fun e => decide (0 < e.2)))).map (fun e => e.1))
    else []
  let base :=
    if d.toLiteChain ∧ ¬ base.contains d.originChainId ∧
        l1TokenEnabledForChain env l1Token d.originChainId
    then base ++ [d.originChainId] else base
  let base :=
    if canTakeDestinationChainRepayment env d ∧ ¬ base.contains d.destinationChainId ∧
        l1TokenEnabledForChain env l1Token d.destinationChainId
    then base ++ [d.destinationChainId] else base
  let base :=
    if ¬ base.contains d.originChainId ∧ d.originChainId ≠ env.hubChainId ∧
        l1TokenEnabledForChain env l1Token d.originChainId
    then base ++ [d.originChainId] else base
  base

/-- One iteration of the repayment loop of `determineRefundChainId`:
whether `chainId` is pushed onto `eligibleRefundChains`.  The asserts and
the undefined-repayment-token accesses are errors. -/
def repaymentChainEligible (env : InvEnv) (d : Deposit)
    (l1Token inputAmountInL1TokenDecimals cumulativeVirtualBalancePostRefunds chainId : Int) :
    Except String Bool := do
  if ¬ l1TokenEnabledForChain env l1Token chainId then throw "Token not enabled for chain"
  let repaymentToken ← match getRemoteTokenForL1Token env l1Token chainId with
    | none => throw "No repayment token for chain"
    | some t => pure t
  if chainId ≠ d.originChainId ∧ ¬ env.l2TokenHasPoolRebalanceRoute repaymentToken chainId then
    throw "Token not enabled as PoolRebalanceRoute for chain"
  let chainShortfall := convertDecimals (env.tokenDecimals repaymentToken chainId)
    (env.l1TokenDecimals l1Token) (env.shortfall chainId repaymentToken)
  let chainVirtualBalance := getBalanceOnChainL2 env chainId l1Token repaymentToken
  let chainVirtualBalanceWithShortfall := chainVirtualBalance - chainShortfall
  let postRelay :=
    if chainId = d.destinationChainId ∧
        env.areTokensEquivalent d.inputToken d.originChainId d.outputToken d.destinationChainId
    then chainVirtualBalanceWithShortfall
    else chainVirtualBalanceWithShortfall + inputAmountInL1TokenDecimals
  let postRelay := postRelay + totalRefundsLookup env l1Token chainId
  let expectedPostRelayAllocation ← bnDivE (postRelay * fixedPoint)
    cumulativeVirtualBalancePostRefunds
  let cfg ← getTokenConfig env l1Token chainId (some repaymentToken)
  match cfg with
  | none => return chainId = d.destinationChainId
  | some tokenConfig =>
    let targetOverageBuffer := tokenConfig.targetOverageBuffer.getD DEFAULT_TOKEN_OVERAGE
    let effectiveTargetPct :=
      if d.toLiteChain ∧ chainId = d.destinationChainId then tokenConfig.targetPct
      else bnDiv (tokenConfig.targetPct * targetOverageBuffer) fixedPoint
    return expectedPostRelayAllocation ≤ effectiveTargetPct

/-- The tail of `InventoryClient.determineRefundChainId` once the l1 token
is resolved: refunds, candidate ordering, the sanity check against
`getPossibleRepaymentChainIds`, the eligibility loop, the lite-chain
enforcement and the hub-chain fallback. -/
def determineRefundChainIdCore (env : InvEnv) (d : Deposit) (l1Token : Int) :
    Except String (List Int) := do
  let forceOriginRepayment := depositForcesOriginChainRepayment d
  let inputAmountInL1TokenDecimals := convertDecimals
    (env.tokenDecimals d.inputToken d.originChainId) (env.l1TokenDecimals l1Token) d.inputAmount
  let cumulativeRefunds := (env.chainIdList.map (totalRefundsPerChain env l1Token)).sum
  let cumulativeVirtualBalance := getCumulativeBalance env l1Token
  let chainsToEvaluate := buildChainsToEvaluate env d l1Token inputAmountInL1TokenDecimals
  let possibleRepaymentChainIds ← getPossibleRepaymentChainIds env d
  if chainsToEvaluate.any (fun c => ¬ possibleRepaymentChainIds.contains c) then
    throw "getPossibleRepaymentChainIds and determineRefundChainId disagree"
  let cumulativeVirtualBalancePostRefunds := cumulativeVirtualBalance + cumulativeRefunds
  let eligibleRefundChains ← chainsToEvaluate.foldlM (fun acc chainId => do
      let eligible ← repaymentChainEligible env d l1Token inputAmountInL1TokenDecimals
        cumulativeVirtualBalancePostRefunds chainId
      pure (if eligible then acc ++ [chainId] else acc)) ([] : List Int)
  if forceOriginRepayment ∧ (eligibleRefundChains.length ≠ 1 ∨
      ¬ eligibleRefundChains.contains d.originChainId) then
    return []
  if ¬ depositForcesOriginChainRepayment d ∧ ¬ eligibleRefundChains.contains env.hubChainId then
    return eligibleRefundChains ++ [env.hubChainId]
  return eligibleRefundChains

/-- `InventoryClient.determineRefundChainId`: the ordered list of eligible
repayment chains for a deposit. -/
def determineRefundChainId (env : InvEnv) (d : Deposit) (l1TokenArg : Option Int) :
    Except String (List Int) := do
  if env.invalidOutputToken d then return []
  let forceOriginRepayment := depositForcesOriginChainRepayment d
  if ¬ isInventoryManagementEnabled env then
    return [if ¬ canTakeDestinationChainRepayment env d then d.originChainId
            else d.destinationChainId]
  if ¬ validateOutputToken env d then throw "Unexpected output token on deposit"
  if forceOriginRepayment ∧ env.quicklyRebalanced d then return [d.originChainId]
  let l1Token ← match l1TokenArg with
    | some t => pure t
    | none =>
      match env.getL1TokenAddressMap d.inputToken d.originChainId with
      | some t => pure t
      | none => throw "getL1TokenAddress: token not found in TOKEN_SYMBOLS_MAP"
  determineRefundChainIdCore env d l1Token

/-- The `withdrawExcessBalances` decision for one `(l1Token, chainId,
l2Token)` triple (the body of the innermost loop, including the enclosing
cumulative-balance and chain guards): `some amount` when a withdrawal is
planned, `none` when the triple is skipped.  The assert on the discounted
overage multiplier and a missing `targetOverageBuffer` are errors. -/
def evaluateExcessWithdrawal (env : InvEnv) (l1Token chainId l2Token : Int) :
    Except String (Option Int) := do
  let cumulativeBalance := getCumulativeBalance env l1Token
  if cumulativeBalance = 0 then return none
  if chainId = env.hubChainId ∨ ¬ l1TokenEnabledForChain env l1Token chainId then return none
  let cfg ← getTokenConfig env l1Token chainId (some l2Token)
  match cfg with
  | none => return none
  | some tokenConfig =>
    match tokenConfig.withdrawExcessPeriod with
    | none => return none
    | some withdrawExcessPeriod => do
      if ¬ env.isSupportedL2Bridge chainId l1Token then return none
      let currentAllocPct := getCurrentAllocationPct env l1Token chainId l2Token
      let discountToTargetOverageBuffer : Int := 95 * 10 ^ 16
      let targetOverageBuffer ← match tokenConfig.targetOverageBuffer with
        | none => throw "TypeError: targetOverageBuffer is undefined"
        | some b => pure b
      let targetPctMultiplier := bnDiv (targetOverageBuffer * discountToTargetOverageBuffer)
        fixedPoint
      if ¬ targetPctMultiplier ≥ fixedPoint then
        throw "Target overage buffer multiplied by discount must be at least 1"
      let excessWithdrawThresholdPct := bnDiv (tokenConfig.targetPct * targetPctMultiplier)
        fixedPoint
      let shouldWithdrawExcess := decide (currentAllocPct ≥ excessWithdrawThresholdPct)
      let withdrawPct := currentAllocPct - tokenConfig.targetPct
      let cumulativeBalanceInL2TokenDecimals := convertDecimals (env.l1TokenDecimals l1Token)
        (env.tokenDecimals l2Token chainId) cumulativeBalance
      let desiredWithdrawalAmount := bnDiv (cumulativeBalanceInL2TokenDecimals * withdrawPct)
        fixedPoint
      if ¬ shouldWithdrawExcess then return none
      let maxL2WithdrawalVolume := bnDiv
        ((excessWithdrawThresholdPct - tokenConfig.targetPct) * cumulativeBalanceInL2TokenDecimals)
        fixedPoint
      let pendingWithdrawalAmount := env.pendingWithdrawalAmount withdrawExcessPeriod chainId
        l2Token
      if pendingWithdrawalAmount ≥ maxL2WithdrawalVolume then return none
      return some desiredWithdrawalAmount

/-- `TransactionCostEstimate`: native gas units, gas-token units, gas price. -/
structure GasCosts where
  nativeGasCost : Int
  tokenGasCost : Int
  gasPrice : Int
deriving Repr, DecidableEq

/-- The `uint256Max` triple returned on simulation failure. -/
def sentinelGasCosts : GasCosts :=
  { nativeGasCost := uint256Max, tokenGasCost := uint256Max, gasPrice := uint256Max }

/-- The environment of a `ProfitClient`: configuration plus external reads
(hub-pool token info, cached prices, gas simulation, minimum-fee lookup). -/
structure ProfitEnv where
  hubChainId : Int
  isTestnet : Bool
  /-- The post-constructor padding `toBNWei(1) + configured padding`. -/
  gasPadding : Int
  gasMultiplier : Int
  gasMessageMultiplier : Int
  /-- `hubPoolClient.getTokenInfoForAddress(token, chainId).symbol` (symbols
  are integer identifiers). -/
  tokenSymbol : Int → Int → Int
  /-- `hubPoolClient.getTokenInfoForAddress(token, chainId).decimals`. -/
  tokenDecimals : Int → Int → Nat
  /-- `getPriceOfToken(symbol)`: the cached USD price, already 0 for
  unknown tokens. -/
  priceOf : Int → Int
  /-- `resolveGasToken(chainId).symbol`. -/
  gasTokenSymbol : Int → Int
  /-- `resolveGasToken(chainId).decimals`. -/
  gasTokenDecimals : Int → Nat
  /-- `relayerFeeQueries[chainId].getGasCosts(deposit, relayer)`: `none`
  models the query throwing. -/
  gasQuery : Deposit → Option GasCosts
  /-- The `totalGasCosts[chainId]` cache populated by `updateGasCosts`. -/
  cachedGasCost : Int → Option GasCosts
  /-- `minRelayerFeePct(symbol, srcChainId, dstChainId)` (environment
  variables plus the configured default). -/
  minFee : Int → Int → Int → Int

/-- `ProfitClient._getTotalGasCost`: the query result, with a thrown error
mapped to the `uint256Max` sentinel triple. -/
def rawGetTotalGasCost (env : ProfitEnv) (d : Deposit) : GasCosts :=
  (env.gasQuery d).getD sentinelGasCosts

/-- `ProfitClient.getTotalGasCost`: the cached per-chain cost for
message-less deposits when available, else a fresh simulation. -/
def getTotalGasCost (env : ProfitEnv) (d : Deposit) : GasCosts :=
  if d.messageEmpty ∧ (env.cachedGasCost d.destinationChainId).isSome then
    (env.cachedGasCost d.destinationChainId).getD sentinelGasCosts
  else rawGetTotalGasCost env d

/-- `ProfitClient.resolveGasMultiplier`. -/
def resolveGasMultiplier (env : ProfitEnv) (d : Deposit) : Int :=
  if d.messageEmpty then env.gasMultiplier else env.gasMessageMultiplier

/-- The record returned by `estimateFillCost`. -/
structure EstimatedFillCost where
  nativeGasCost : Int
  tokenGasCost : Int
  gasPrice : Int
  gasTokenPriceUsd : Int
  gasCostUsd : Int
deriving Repr, DecidableEq

/-- `ProfitClient.estimateFillCost`: check the raw estimate for the
`uint256Max` sentinel and non-positive values, pad native and token costs by
`gasPadding`, scale only the token cost by the resolved `gasMultiplier`, and
price the result in USD. -/
def estimateFillCost (env : ProfitEnv) (d : Deposit) : Except String EstimatedFillCost := do
  let chainId := d.destinationChainId
  let gasTokenPriceUsd := env.priceOf (env.gasTokenSymbol chainId)
  let totalGasCost := getTotalGasCost env d
  if totalGasCost.nativeGasCost = uint256Max ∨ totalGasCost.nativeGasCost ≤ 0 then
    throw "Unable to compute gas cost (gas consumption unknown)"
  if totalGasCost.tokenGasCost = uint256Max ∨ totalGasCost.tokenGasCost ≤ 0 then
    throw "Unable to compute gas cost (gas cost unknown)"
  if gasTokenPriceUsd = uint256Max ∨ gasTokenPriceUsd ≤ 0 then
    throw "Unable to compute gas cost (gas token price unknown)"
  let nativeGasCost := bnDiv (totalGasCost.nativeGasCost * env.gasPadding) fixedPoint
  let tokenGasCost := bnDiv (totalGasCost.tokenGasCost * env.gasPadding) fixedPoint
  let gasMultiplier := resolveGasMultiplier env d
  let tokenGasCost := bnDiv (tokenGasCost * gasMultiplier) fixedPoint
  let gasCostUsd := bnDiv (tokenGasCost * gasTokenPriceUsd)
    (10 ^ (env.gasTokenDecimals chainId))
  return { nativeGasCost := nativeGasCost, tokenGasCost := tokenGasCost,
           gasPrice := totalGasCost.gasPrice, gasTokenPriceUsd := gasTokenPriceUsd,
           gasCostUsd := gasCostUsd }

/-- `FillProfit` (all BigNumbers scaled to 18 decimals). -/
structure FillProfit where
  inputTokenPriceUsd : Int
  inputAmountUsd : Int
  outputTokenPriceUsd : Int
  outputAmountUsd : Int
  grossRelayerFeePct : Int
  grossRelayerFeeUsd : Int
  nativeGasCost : Int
  tokenGasCost : Int
  gasPrice : Int
  gasPadding : Int
  gasMultiplier : Int
  gasTokenPriceUsd : Int
  gasCostUsd : Int
  netRelayerFeePct : Int
  netRelayerFeeUsd : Int
  totalFeePct : Int
  profitable : Bool
deriving Repr, DecidableEq

/-- `ProfitClient.calculateFillProfitability`.  `toBNWei(1, 18 - decimals)`
throws for tokens with more than 18 decimals; the `totalFeePct` division
faults when the input USD value is zero. -/
def calculateFillProfitability (env : ProfitEnv) (d : Deposit)
    (lpFeePct minRelayerFeePct : Int) : Except String FillProfit := do
  let inputTokenDecimals := env.tokenDecimals d.inputToken d.originChainId
  let inputTokenPriceUsd := env.priceOf (env.tokenSymbol d.inputToken d.originChainId)
  if 18 < inputTokenDecimals then throw "toBNWei: invalid decimal count"
  let inputTokenScalar : Int := 10 ^ (18 - inputTokenDecimals)
  let scaledInputAmount := d.inputAmount * inputTokenScalar
  let inputAmountUsd := bnDiv (scaledInputAmount * inputTokenPriceUsd) fixedPoint
  let outputTokenDecimals := env.tokenDecimals d.outputToken d.destinationChainId
  let outputTokenPriceUsd := env.priceOf (env.tokenSymbol d.outputToken d.destinationChainId)
  if 18 < outputTokenDecimals then throw "toBNWei: invalid decimal count"
  let outputTokenScalar : Int := 10 ^ (18 - outputTokenDecimals)
  let effectiveOutputAmount := min d.outputAmount (d.updatedOutputAmount.getD d.outputAmount)
  let scaledOutputAmount := effectiveOutputAmount * outputTokenScalar
  let outputAmountUsd := bnDiv (scaledOutputAmount * outputTokenPriceUsd) fixedPoint
  let totalFeePct ← bnDivE ((inputAmountUsd - outputAmountUsd) * fixedPoint) inputAmountUsd
  let scaledLpFeeAmount := bnDiv (scaledInputAmount * lpFeePct) fixedPoint
  let lpFeeUsd := bnDiv (scaledLpFeeAmount * inputTokenPriceUsd) fixedPoint
  let grossRelayerFeeUsd := inputAmountUsd - outputAmountUsd - lpFeeUsd
  let grossRelayerFeePct :=
    if 0 < grossRelayerFeeUsd then bnDiv (grossRelayerFeeUsd * fixedPoint) inputAmountUsd else 0
  let est ← estimateFillCost env d
  let netRelayerFeeUsd := grossRelayerFeeUsd - est.gasCostUsd
  let netRelayerFeePct :=
    if 0 < outputAmountUsd then bnDiv (netRelayerFeeUsd * fixedPoint) outputAmountUsd else 0
  let profitable := decide (0 < inputTokenPriceUsd) && decide (0 < outputTokenPriceUsd) &&
    decide (minRelayerFeePct ≤ netRelayerFeePct)
  return { inputTokenPriceUsd := inputTokenPriceUsd, inputAmountUsd := inputAmountUsd,
           outputTokenPriceUsd := outputTokenPriceUsd, outputAmountUsd := outputAmountUsd,
           grossRelayerFeePct := grossRelayerFeePct, grossRelayerFeeUsd := grossRelayerFeeUsd,
           nativeGasCost := est.nativeGasCost, tokenGasCost := est.tokenGasCost,
           gasPrice := est.gasPrice, gasPadding := env.gasPadding,
           gasMultiplier := resolveGasMultiplier env d,
           gasTokenPriceUsd := est.gasTokenPriceUsd, gasCostUsd := est.gasCostUsd,
           netRelayerFeePct := netRelayerFeePct, netRelayerFeeUsd := netRelayerFeeUsd,
           totalFeePct := totalFeePct, profitable := profitable }

/-- `ProfitClient.getFillProfitability`: resolve the route minimum fee from
the l1 token's symbol and delegate. -/
def getFillProfitability (env : ProfitEnv) (d : Deposit) (lpFeePct l1Token : Int) :
    Except String FillProfit :=
  let symbol := env.tokenSymbol l1Token env.hubChainId
  calculateFillProfitability env d lpFeePct
    (env.minFee symbol d.originChainId d.destinationChainId)

/-- The summary returned by `isFillProfitable`. -/
structure FillProfitabilitySummary where
  profitable : Bool
  nativeGasCost : Int
  tokenGasCost : Int
  gasPrice : Int
  netRelayerFeePct : Int
deriving Repr, DecidableEq

/-- `ProfitClient.isFillProfitable`: catches a thrown profitability
computation (leaving the `uint256Max` defaults in place) and forces
`profitable` on testnets whenever the native gas cost is below the
sentinel. -/
def isFillProfitable (env : ProfitEnv) (d : Deposit) (lpFeePct l1Token : Int) :
    FillProfitabilitySummary :=
  match getFillProfitability env d lpFeePct l1Token with
  | .ok fill =>
    { profitable := fill.profitable || (env.isTestnet && decide (fill.nativeGasCost < uint256Max)),
      nativeGasCost := fill.nativeGasCost, tokenGasCost := fill.tokenGasCost,
      gasPrice := fill.gasPrice, netRelayerFeePct := fill.netRelayerFeePct }
  | .error _ =>
    { profitable := false || (env.isTestnet && decide ((uint256Max : Int) < uint256Max)),
      nativeGasCost := uint256Max, tokenGasCost := uint256Max, gasPrice := uint256Max,
      netRelayerFeePct := 0 }

/-- The pre-population step of `updateTokenPrices`: every address in the
lookup list gets a zero price if it has none yet; stored prices are kept. -/
def prePopulatePrices (prices : Int → Option Int) (tokens : List Int) : Int → Option Int :=
  fun a => if tokens.contains a ∧ (prices a).isNone then some 0 else prices a

/-- `ProfitClient.updateTokenPrices` acting on the price cache: pre-populate
new addresses, then either store every fetched price (successful batched
fetch) or keep the cache and propagate an error (failed fetch, modelled by
`none`). -/
def updateTokenPrices (prices : Int → Option Int) (tokens : List Int)
    (fetched : Option (List (Int × Int))) : (Int → Option Int) × Except String Unit :=
  let prices := prePopulatePrices prices tokens
  match fetched with
  | some results =>
    (results.foldl (fun acc ap => fun a => if a = ap.1 then some ap.2 else acc a) prices, .ok ())
  | none => (prices, .error "Failed to update token prices")

/-- A Linea `MessageSent` initiation event on the hub chain. -/
structure InitiationEvent where
  messageHash : Int
  value : Int
deriving Repr, DecidableEq

/-- A Linea `MessageClaimed` finalization event on the l2 chain. -/
structure FinalizationEvent where
  messageHash : Int
  blockNumber : Int
  txnIndex : Int
  logIndex : Int
deriving Repr, DecidableEq

/-- A matched event emitted by `queryL2BridgeFinalizationEvents`: the
initiation's value with the finalization's on-chain coordinates. -/
structure MatchedEvent where
  amount : Int
  blockNumber : Int
  txnIndex : Int
  logIndex : Int
deriving Repr, DecidableEq

/-- `LineaWethBridge.queryL2BridgeFinalizationEvents`: `initiations` is the
hub-chain `MessageSent` query result over the timestamp-translated window;
`l2MessageClaimedLog` holds the destination chain's `MessageClaimed` events
in the searched range, of which the RPC filter returns those whose hash is
in the requested list. -/
def queryL2BridgeFinalizationEvents (initiations : List InitiationEvent)
    (l2MessageClaimedLog : List FinalizationEvent) : List MatchedEvent :=
  if initiations.isEmpty then []
  else
    let internalMessageHashes :=
      (initiations.filter (fun e => decide (0 < e.value))).map (fun e => e.messageHash)
    let events := l2MessageClaimedLog.filter (fun e =>
      internalMessageHashes.contains e.messageHash)
    events.filterMap (fun finalized =>
      (initiations.find? (fun initiated => initiated.messageHash == finalized.messageHash)).map
        (fun queryEvent =>
          { amount := queryEvent.value, blockNumber := finalized.blockNumber,
            txnIndex := finalized.txnIndex, logIndex := finalized.logIndex }))

/-! Concrete environments used by witnesses and counterexamples. -/

/-- A trivial inventory environment with inventory management disabled
(empty token config); collaborator predicates all permissive. -/
def envC2 : InvEnv :=
  { hubChainId := 1, chainIdList := [1], prioritizeLpUtilization := true,
    tokenConfig := [],
    l1TokenDecimals := fun _ => 18, tokenDecimals := fun _ _ => 18,
    balance := fun _ _ => 0, shortfall := fun _ _ => 0,
    outstandingTransfer := fun _ _ _ => 0,
    remoteToken := fun _ _ => none,
    areTokensEquivalent := fun _ _ _ _ => true,
    l2TokenHasPoolRebalanceRoute := fun _ _ => true,
    l2TokenEnabledForL1Token := fun _ _ => true,
    getL1TokenForL2Token := fun _ _ => 40,
    getL1TokenAddressMap := fun _ _ => some 40,
    invalidOutputToken := fun _ => false, quicklyRebalanced := fun _ => false,
    slowWithdrawalChains := [], bundleRefund := fun _ _ => 0,
    spokeTarget := fun _ _ => 0, absRunningBalance := fun _ _ => 0,
    isSupportedL2Bridge := fun _ _ => true, pendingWithdrawalAmount := fun _ _ _ => 0 }

/-- A lite-chain deposit from chain 42 to chain 77. -/
def depC2 : Deposit :=
  { depositId := 1, originChainId := 42, destinationChainId := 77, inputToken := 3,
    outputToken := 4, inputAmount := 100, outputAmount := 99, updatedOutputAmount := none,
    messageEmpty := true, fromLiteChain := true, toLiteChain := false }

/-- Inventory environment with inventory management disabled and a valid
destination-repayment route. -/
def envC3 : InvEnv :=
  { hubChainId := 1, chainIdList := [1], prioritizeLpUtilization := true,
    tokenConfig := [],
    l1TokenDecimals := fun _ => 18, tokenDecimals := fun _ _ => 18,
    balance := fun _ _ => 0, shortfall := fun _ _ => 0,
    outstandingTransfer := fun _ _ _ => 0,
    remoteToken := fun _ _ => none,
    areTokensEquivalent := fun _ _ _ _ => true,
    l2TokenHasPoolRebalanceRoute := fun _ _ => true,
    l2TokenEnabledForL1Token := fun _ _ => true,
    getL1TokenForL2Token := fun _ _ => 40,
    getL1TokenAddressMap := fun _ _ => some 40,
    invalidOutputToken := fun _ => false, quicklyRebalanced := fun _ => false,
    slowWithdrawalChains := [], bundleRefund := fun _ _ => 0,
    spokeTarget := fun _ _ => 0, absRunningBalance := fun _ _ => 0,
    isSupportedL2Bridge := fun _ _ => true, pendingWithdrawalAmount := fun _ _ _ => 0 }

/-- An ordinary (non-lite) deposit from chain 10 to chain 77. -/
def depC3 : Deposit :=
  { depositId := 2, originChainId := 10, destinationChainId := 77, inputToken := 3,
    outputToken := 4, inputAmount := 100, outputAmount := 99, updatedOutputAmount := none,
    messageEmpty := true, fromLiteChain := false, toLiteChain := false }

/-- Inventory environment with inventory management enabled for l1 token 40
on chain 5 only, so neither origin nor destination is an eligible
candidate and only the hub fallback remains. -/
def envC3W : InvEnv :=
  { hubChainId := 1, chainIdList := [1], prioritizeLpUtilization := true,
    tokenConfig := [(40, .direct [(5, { targetPct := 10 ^ 17, thresholdPct := 5 * 10 ^ 16 })])],
    l1TokenDecimals := fun _ => 18, tokenDecimals := fun _ _ => 18,
    balance := fun _ _ => 0, shortfall := fun _ _ => 0,
    outstandingTransfer := fun _ _ _ => 0,
    remoteToken := fun _ _ => none,
    areTokensEquivalent := fun _ _ _ _ => true,
    l2TokenHasPoolRebalanceRoute := fun _ _ => true,
    l2TokenEnabledForL1Token := fun _ _ => true,
    getL1TokenForL2Token := fun _ _ => 40,
    getL1TokenAddressMap := fun _ _ => some 40,
    invalidOutputToken := fun _ => false, quicklyRebalanced := fun _ => false,
    slowWithdrawalChains := [], bundleRefund := fun _ _ => 0,
    spokeTarget := fun _ _ => 0, absRunningBalance := fun _ _ => 0,
    isSupportedL2Bridge := fun _ _ => true, pendingWithdrawalAmount := fun _ _ _ => 0 }

/-- A deposit with an empty message used to exercise the gas-cost scaling. -/
def depC5 : Deposit :=
  { depositId := 0, originChainId := 10, destinationChainId := 77, inputToken := 3,
    outputToken := 4, inputAmount := 100, outputAmount := 99, updatedOutputAmount := none,
    messageEmpty := true, fromLiteChain := false, toLiteChain := false }

/-- Profit environment with a raw token gas cost of 1, padding 1.5x and
multiplier 1.5x: the two sequential floor divisions yield 1 while a single
division by 10^36 would yield 2. -/
def envC5 : ProfitEnv :=
  { hubChainId := 1, isTestnet := false, gasPadding := 15 * 10 ^ 17,
    gasMultiplier := 15 * 10 ^ 17, gasMessageMultiplier := 2 * 10 ^ 18,
    tokenSymbol := fun _ _ => 0, tokenDecimals := fun _ _ => 18,
    priceOf := fun _ => 10 ^ 18, gasTokenSymbol := fun _ => 0,
    gasTokenDecimals := fun _ => 18,
    gasQuery := fun _ => some { nativeGasCost := 1, tokenGasCost := 1, gasPrice := 5 },
    cachedGasCost := fun _ => none, minFee := fun _ _ _ => 0 }

/-- The `estimateFillCost` output on `envC5`/`depC5`. -/
def estC5 : EstimatedFillCost :=
  { nativeGasCost := 1, tokenGasCost := 1, gasPrice := 5, gasTokenPriceUsd := 10 ^ 18,
    gasCostUsd := 1 }

/-- A price cache holding one stored price (address 5 at price 7). -/
def pricesC7 : Int → Option Int := fun a => if a = 5 then some 7 else none

/-- Token config with a 200% target, an overage buffer of `2e18 + 1` and an
excess-withdrawal period: the buffer's odd last digit makes the two-stage
flooring of the threshold differ from a single division by `10^36`. -/
def cfgC9 : TokenBalanceConfig :=
  { targetPct := 2 * 10 ^ 18, thresholdPct := 10 ^ 17,
    targetOverageBuffer := some (2 * 10 ^ 18 + 1), withdrawExcessPeriod := some 86400 }

/-- Inventory environment for the excess-withdrawal rate-limit: chain 2
holds 38 units of token 50 while the only enabled chain (3) holds 10, so
the allocation percentage of chain 2 is exactly 380%. -/
def envC9 : InvEnv :=
  { hubChainId := 1, chainIdList := [3], prioritizeLpUtilization := true,
    tokenConfig := [(40, .direct [(2, cfgC9)])],
    l1TokenDecimals := fun _ => 18, tokenDecimals := fun _ _ => 18,
    balance := fun c t => if c = 2 ∧ t = 50 then 38 else if c = 3 ∧ t = 60 then 10 else 0,
    shortfall := fun _ _ => 0,
    outstandingTransfer := fun _ _ _ => 0,
    remoteToken := fun l1 c =>
      if l1 = 40 ∧ c = 2 then some 50 else if l1 = 40 ∧ c = 3 then some 60 else none,
    areTokensEquivalent := fun _ _ _ _ => true,
    l2TokenHasPoolRebalanceRoute := fun _ _ => true,
    l2TokenEnabledForL1Token := fun _ _ => true,
    getL1TokenForL2Token := fun _ _ => 40,
    getL1TokenAddressMap := fun _ _ => some 40,
    invalidOutputToken := fun _ => false, quicklyRebalanced := fun _ => false,
    slowWithdrawalChains := [], bundleRefund := fun _ _ => 0,
    spokeTarget := fun _ _ => 0, absRunningBalance := fun _ _ => 0,
    isSupportedL2Bridge := fun _ _ => true, pendingWithdrawalAmount := fun _ _ _ => 0 }

/-- Mainnet profit environment whose gas simulation throws for every
deposit and whose per-chain gas cache is empty. -/
def envC6 : ProfitEnv :=
  { hubChainId := 1, isTestnet := false, gasPadding := 2 * 10 ^ 18,
    gasMultiplier := 10 ^ 18, gasMessageMultiplier := 10 ^ 18,
    tokenSymbol := fun _ _ => 0, tokenDecimals := fun _ _ => 18,
    priceOf := fun _ => 10 ^ 18, gasTokenSymbol := fun _ => 0,
    gasTokenDecimals := fun _ => 18, gasQuery := fun _ => none,
    cachedGasCost := fun _ => none, minFee := fun _ _ _ => 0 }

/-- Testnet profit environment whose gas simulation succeeds. -/
def envC6T : ProfitEnv :=
  { hubChainId := 11155111, isTestnet := true, gasPadding := 2 * 10 ^ 18,
    gasMultiplier := 10 ^ 18, gasMessageMultiplier := 10 ^ 18,
    tokenSymbol := fun _ _ => 0, tokenDecimals := fun _ _ => 18,
    priceOf := fun _ => 10 ^ 18, gasTokenSymbol := fun _ => 0,
    gasTokenDecimals := fun _ => 18,
    gasQuery := fun _ => some { nativeGasCost := 1, tokenGasCost := 1, gasPrice := 5 },
    cachedGasCost := fun _ => none, minFee := fun _ _ _ => 0 }

/-- An ordinary deposit with a positive output amount. -/
def depC6 : Deposit :=
  { depositId := 7, originChainId := 10, destinationChainId := 77, inputToken := 3,
    outputToken := 4, inputAmount := 100, outputAmount := 99, updatedOutputAmount := none,
    messageEmpty := true, fromLiteChain := false, toLiteChain := false }

/-- Profit environment for the zero-output profitability boundary: every
price is one dollar and gas is cheap. -/
def envC4 : ProfitEnv :=
  { hubChainId := 1, isTestnet := false, gasPadding := 2 * 10 ^ 18,
    gasMultiplier := 10 ^ 18, gasMessageMultiplier := 10 ^ 18,
    tokenSymbol := fun _ _ => 0, tokenDecimals := fun _ _ => 18,
    priceOf := fun _ => 10 ^ 18, gasTokenSymbol := fun _ => 0,
    gasTokenDecimals := fun _ => 18,
    gasQuery := fun _ => some { nativeGasCost := 1, tokenGasCost := 1, gasPrice := 5 },
    cachedGasCost := fun _ => none, minFee := fun _ _ _ => 0 }

/-- A deposit whose effective output amount is zero. -/
def depC4 : Deposit :=
  { depositId := 9, originChainId := 10, destinationChainId := 77, inputToken := 3,
    outputToken := 4, inputAmount := 100, outputAmount := 0, updatedOutputAmount := none,
    messageEmpty := true, fromLiteChain := false, toLiteChain := false }

/-- The `FillProfit` record computed on `envC4`/`depC4` with an LP fee of 0
and a minimum relayer fee of 1. -/
def fpC4 : FillProfit :=
  { inputTokenPriceUsd := 10 ^ 18, inputAmountUsd := 100, outputTokenPriceUsd := 10 ^ 18,
    outputAmountUsd := 0, grossRelayerFeePct := 10 ^ 18, grossRelayerFeeUsd := 100,
    nativeGasCost := 2, tokenGasCost := 2, gasPrice := 5, gasPadding := 2 * 10 ^ 18,
    gasMultiplier := 10 ^ 18, gasTokenPriceUsd := 10 ^ 18, gasCostUsd := 2,
    netRelayerFeePct := 0, netRelayerFeeUsd := 98, totalFeePct := 10 ^ 18,
    profitable := false }

/-- Inventory environment whose chain 2 holds 10 units of token 50 (mapped
from l1 token 40) while the token client reports a shortfall of 20 on that
chain: the shortfall exceeds the effective balance. -/
def envC1 : InvEnv :=
  { hubChainId := 1, chainIdList := [2], prioritizeLpUtilization := true,
    tokenConfig := [(40, .direct [(2, { targetPct := 10 ^ 17, thresholdPct := 5 * 10 ^ 16 })])],
    l1TokenDecimals := fun _ => 18, tokenDecimals := fun _ _ => 18,
    balance := fun c t => if c = 2 ∧ t = 50 then 10 else 0,
    shortfall := fun c t => if c = 2 ∧ t = 50 then 20 else 0,
    outstandingTransfer := fun _ _ _ => 0,
    remoteToken := fun l1 c => if l1 = 40 ∧ c = 2 then some 50 else none,
    areTokensEquivalent := fun _ _ _ _ => true,
    l2TokenHasPoolRebalanceRoute := fun _ _ => true,
    l2TokenEnabledForL1Token := fun _ _ => true,
    getL1TokenForL2Token := fun _ _ => 40,
    getL1TokenAddressMap := fun _ _ => some 40,
    invalidOutputToken := fun _ => false, quicklyRebalanced := fun _ => false,
    slowWithdrawalChains := [], bundleRefund := fun _ _ => 0,
    spokeTarget := fun _ _ => 0, absRunningBalance := fun _ _ => 0,
    isSupportedL2Bridge := fun _ _ => true, pendingWithdrawalAmount := fun _ _ _ => 0 }

/-- Inventory environment with constant balances and no shortfalls. -/
def envC1W : InvEnv :=
  { hubChainId := 1, chainIdList := [2], prioritizeLpUtilization := true,
    tokenConfig := [(40, .direct [(2, { targetPct := 10 ^ 17, thresholdPct := 5 * 10 ^ 16 })])],
    l1TokenDecimals := fun _ => 18, tokenDecimals := fun _ _ => 18,
    balance := fun _ _ => 5, shortfall := fun _ _ => 0,
    outstandingTransfer := fun _ _ _ => 0,
    remoteToken := fun l1 c => if l1 = 40 ∧ c = 2 then some 50 else none,
    areTokensEquivalent := fun _ _ _ _ => true,
    l2TokenHasPoolRebalanceRoute := fun _ _ => true,
    l2TokenEnabledForL1Token := fun _ _ => true,
    getL1TokenForL2Token := fun _ _ => 40,
    getL1TokenAddressMap := fun _ _ => some 40,
    invalidOutputToken := fun _ => false, quicklyRebalanced := fun _ => false,
    slowWithdrawalChains := [], bundleRefund := fun _ _ => 0,
    spokeTarget := fun _ _ => 0, absRunningBalance := fun _ _ => 0,
    isSupportedL2Bridge := fun _ _ => true, pendingWithdrawalAmount := fun _ _ _ => 0 }

end Relayer

namespace Relayer

/-! ## Claim theorems -/

/-- C8: for every slow-withdrawal chain the excess percentage equals 0 when
the target covers the post-relay excess `E - R`, saturates to MAX_UINT when
the target is 0 and `E - R` exceeds it, and is
`((E - R) - T) * 10^18 / abs T` otherwise. -/
theorem claim_C8 (target excess refundAmount : Int) :
    excessRunningBalancePct target excess refundAmount =
      excessRunningBalancePctSpec target excess refundAmount := by
  simp only [excessRunningBalancePct, excessRunningBalancePctSpec]
  split_ifs <;> omega

/-- C7: a failing batched price fetch leaves every previously stored token
price unchanged and propagates an error; prices are rewritten only by a
successful fetch. -/
theorem claim_C7 (prices : Int → Option Int) (tokens : List Int) (a p : Int)
    (hstored : prices a = some p) :
    (updateTokenPrices prices tokens none).1 a = some p ∧
      (updateTokenPrices prices tokens none).2 = .error "Failed to update token prices" := by
  refine ⟨?_, rfl⟩
  simp [updateTokenPrices, prePopulatePrices, hstored]

/-- Witness for C7 at a concrete one-entry cache. -/
theorem claim_C7_witness :
    pricesC7 5 = some 7 ∧
      ((updateTokenPrices pricesC7 [5, 9] none).1 5 = some 7 ∧
        (updateTokenPrices pricesC7 [5, 9] none).2 = .error "Failed to update token prices") :=
  ⟨rfl, claim_C7 pricesC7 [5, 9] 5 7 rfl⟩

/-- C5 (amended): on success, `estimateFillCost` pads the native cost once
(`raw * gasPadding / 10^18`, never scaled by the multiplier) and scales the
token cost in two sequential floor divisions
(`(raw * gasPadding / 10^18) * gasMultiplier / 10^18`), where the multiplier
for message-carrying deposits is the message multiplier. -/
theorem claim_C5 (env : ProfitEnv) (d : Deposit) (r : EstimatedFillCost)
    (h : estimateFillCost env d = .ok r) :
    r.nativeGasCost = bnDiv ((getTotalGasCost env d).nativeGasCost * env.gasPadding) fixedPoint ∧
      r.tokenGasCost =
        bnDiv (bnDiv ((getTotalGasCost env d).tokenGasCost * env.gasPadding) fixedPoint *
          resolveGasMultiplier env d) fixedPoint := by
  simp only [estimateFillCost, bind, Except.bind, pure, Except.pure] at h
  split at h
  · exact absurd h (by simp)
  split at h
  · exact absurd h (by simp)
  split at h
  · exact absurd h (by simp)
  rw [Except.ok.injEq] at h
  subst h
  exact ⟨rfl, rfl⟩

set_option maxRecDepth 10000 in
/-- Witness for C5 at `envC5`/`depC5`. -/
theorem claim_C5_witness :
    estimateFillCost envC5 depC5 = .ok estC5 ∧
      (estC5.nativeGasCost =
          bnDiv ((getTotalGasCost envC5 depC5).nativeGasCost * envC5.gasPadding) fixedPoint ∧
        estC5.tokenGasCost =
          bnDiv (bnDiv ((getTotalGasCost envC5 depC5).tokenGasCost * envC5.gasPadding) fixedPoint *
            resolveGasMultiplier envC5 depC5) fixedPoint) :=
  ⟨rfl, claim_C5 envC5 depC5 estC5 rfl⟩

/-- A successful `calculateFillProfitability` run passed through a
successful `estimateFillCost` run. -/
theorem calculateFillProfitability_ok_est (env : ProfitEnv) (d : Deposit)
    (lpFeePct minRelayerFeePct : Int) (fp : FillProfit)
    (h : calculateFillProfitability env d lpFeePct minRelayerFeePct = .ok fp) :
    ∃ r, estimateFillCost env d = .ok r := by
  simp only [calculateFillProfitability, bind, Except.bind, pure, Except.pure] at h
  split at h
  · exact absurd h (by simp)
  split at h
  · exact absurd h (by simp)
  split at h
  · exact absurd h (by simp)
  split at h
  · exact absurd h (by simp)
  next r heq => exact ⟨r, heq⟩

/-- When the raw gas estimate is the sentinel triple, `estimateFillCost`
throws. -/
theorem estimateFillCost_sentinel (env : ProfitEnv) (d : Deposit)
    (h : getTotalGasCost env d = sentinelGasCosts) (r : EstimatedFillCost) :
    estimateFillCost env d ≠ .ok r := by
  intro hok
  simp only [estimateFillCost, h, sentinelGasCosts, bind, Except.bind, pure, Except.pure] at hok
  simp at hok

/-- With an empty cache and a throwing query, `getTotalGasCost` returns the
sentinel. -/
theorem getTotalGasCost_sentinel (env : ProfitEnv) (d : Deposit)
    (hq : env.gasQuery d = none) (hc : env.cachedGasCost d.destinationChainId = none) :
    getTotalGasCost env d = sentinelGasCosts := by
  simp [getTotalGasCost, hc, rawGetTotalGasCost, hq]

set_option maxRecDepth 10000 in
/-- C5 counterexample: with a raw token gas cost of 1, padding 1.5x and
multiplier 1.5x the code returns 1 while the claimed single division
`raw * gasPadding * gasMultiplier / 10^36` yields 2. -/
theorem claim_C5_counterexample :
    (estimateFillCost envC5 depC5).map (fun r => r.tokenGasCost) = .ok 1 ∧
      bnDiv ((getTotalGasCost envC5 depC5).tokenGasCost * envC5.gasPadding *
        resolveGasMultiplier envC5 depC5) (10 ^ 36) = 2 :=
  ⟨rfl, rfl⟩

/-- C6: a thrown gas query makes `_getTotalGasCost` return the `uint256Max`
sentinel triple instead of propagating; `isFillProfitable` then reports
`profitable = false` on mainnet, while on testnet it reports
`profitable = true` whenever the returned native gas cost is below the
sentinel (simulation succeeded). -/
theorem claim_C6 (env envT : ProfitEnv) (d dT : Deposit) (lpFeePct lpFeePctT l1Token l1TokenT : Int)
    (hq : env.gasQuery d = none)
    (hc : env.cachedGasCost d.destinationChainId = none)
    (hmain : env.isTestnet = false)
    (htest : envT.isTestnet = true)
    (hnat : (isFillProfitable envT dT lpFeePctT l1TokenT).nativeGasCost < uint256Max) :
    rawGetTotalGasCost env d = sentinelGasCosts ∧
      (isFillProfitable env d lpFeePct l1Token).profitable = false ∧
      (isFillProfitable envT dT lpFeePctT l1TokenT).profitable = true := by
  refine ⟨by simp [rawGetTotalGasCost, hq], ?_, ?_⟩
  · unfold isFillProfitable
    cases hres : getFillProfitability env d lpFeePct l1Token with
    | error e => simp [hres, hmain]
    | ok fill =>
      obtain ⟨r, hr⟩ := calculateFillProfitability_ok_est env d lpFeePct _ fill hres
      exact absurd hr (estimateFillCost_sentinel env d (getTotalGasCost_sentinel env d hq hc) r)
  · unfold isFillProfitable at hnat ⊢
    cases hres : getFillProfitability envT dT lpFeePctT l1TokenT with
    | error e =>
      rw [hres] at hnat
      exact absurd hnat (by simp)
    | ok fill =>
      rw [hres] at hnat
      simp only at hnat
      simp [htest, hnat]

set_option maxRecDepth 10000 in
/-- Witness for C6: the mainnet environment `envC6` fails simulation, the
testnet environment `envC6T` succeeds. -/
theorem claim_C6_witness :
    envC6.gasQuery depC6 = none ∧ envC6.isTestnet = false ∧ envC6T.isTestnet = true ∧
      (isFillProfitable envC6T depC6 0 3).nativeGasCost < uint256Max ∧
      (rawGetTotalGasCost envC6 depC6 = sentinelGasCosts ∧
        (isFillProfitable envC6 depC6 0 3).profitable = false ∧
        (isFillProfitable envC6T depC6 0 3).profitable = true) :=
  ⟨rfl, rfl, rfl, by decide,
    claim_C6 envC6 envC6T depC6 depC6 0 0 3 3 rfl rfl rfl rfl (by decide)⟩

/-- C4 (amended): a returned `FillProfit` is profitable exactly when both
token prices are positive and the net relayer fee fraction meets the route
minimum; a zero effective output amount zeroes the net fee fraction and then
forces `profitable = false` whenever the minimum relayer fee is positive. -/
theorem claim_C4 (env : ProfitEnv) (d : Deposit) (lpFeePct minRelayerFeePct : Int)
    (fp : FillProfit)
    (h : calculateFillProfitability env d lpFeePct minRelayerFeePct = .ok fp) :
    (fp.profitable = true ↔
      0 < fp.inputTokenPriceUsd ∧ 0 < fp.outputTokenPriceUsd ∧
        minRelayerFeePct ≤ fp.netRelayerFeePct) ∧
    (min d.outputAmount (d.updatedOutputAmount.getD d.outputAmount) = 0 →
      0 < minRelayerFeePct → fp.netRelayerFeePct = 0 ∧ fp.profitable = false) := by
  simp only [calculateFillProfitability, bind, Except.bind, pure, Except.pure] at h
  split at h
  · exact absurd h (by simp)
  split at h
  · exact absurd h (by simp)
  split at h
  · exact absurd h (by simp)
  split at h
  · exact absurd h (by simp)
  rw [Except.ok.injEq] at h
  subst h
  constructor
  · simp [and_assoc]
  · intro heff hmin
    rw [heff]
    have hout : ∀ s p : Int, bnDiv (0 * s * p) fixedPoint = 0 := by
      intro s p
      simp [bnDiv]
    rw [hout]
    have hdec : decide (minRelayerFeePct ≤ (0 : Int)) = false := by
      simp
      omega
    simp [hdec]

set_option maxRecDepth 10000 in
/-- Witness for C4 on a concrete zero-output deposit with a positive
minimum relayer fee. -/
theorem claim_C4_witness :
    calculateFillProfitability envC4 depC4 0 1 = .ok fpC4 ∧
      ((fpC4.profitable = true ↔
        0 < fpC4.inputTokenPriceUsd ∧ 0 < fpC4.outputTokenPriceUsd ∧
          1 ≤ fpC4.netRelayerFeePct) ∧
      (min depC4.outputAmount (depC4.updatedOutputAmount.getD depC4.outputAmount) = 0 →
        0 < (1 : Int) → fpC4.netRelayerFeePct = 0 ∧ fpC4.profitable = false)) :=
  ⟨rfl, claim_C4 envC4 depC4 0 1 fpC4 rfl⟩

set_option maxRecDepth 10000 in
/-- C4 counterexample: on a zero-output deposit with positive token prices
and a zero minimum relayer fee, the code returns `profitable = true`,
falsifying the claim that a zero effective output amount always yields
`profitable = false`. -/
theorem claim_C4_counterexample :
    (calculateFillProfitability envC4 depC4 0 0).map (fun fp => fp.profitable) = .ok true ∧
      min depC4.outputAmount (depC4.updatedOutputAmount.getD depC4.outputAmount) = 0 :=
  ⟨rfl, rfl⟩

/-- A `filterMap` whose function is pointwise `some` on the list collapses
to a `map`. -/
theorem filterMap_eq_map_of_mem {α β : Type} (l : List α) (g : α → Option β) (h : α → β)
    (H : ∀ x ∈ l, g x = some (h x)) : l.filterMap g = l.map h := by
  induction l with
  | nil => rfl
  | cons a t ih =>
    rw [List.filterMap_cons, H a (by simp), List.map_cons,
      ih (fun x hx => H x (by simp [hx]))]

/-- Membership of a hash in the positive-value initiation hash list. -/
theorem contains_positive_hash (initiations : List InitiationEvent) (h : Int) :
    (((initiations.filter (fun e => decide (0 < e.value))).map
        (fun e => e.messageHash)).contains h) =
      (initiations.any (fun i => decide (0 < i.value) && i.messageHash == h)) := by
  rw [Bool.eq_iff_iff]
  simp only [List.contains_iff_exists_mem_beq, List.any_eq_true, List.mem_map,
    List.mem_filter, Bool.and_eq_true, decide_eq_true_eq, beq_iff_eq]
  constructor
  · rintro ⟨b, ⟨e, ⟨he, hpos⟩, hb⟩, heq⟩
    exact ⟨e, he, hpos, by rw [hb, heq]⟩
  · rintro ⟨i, hi, hpos, heq⟩
    exact ⟨i.messageHash, ⟨i, ⟨hi, hpos⟩, rfl⟩, by rw [heq]⟩

/-- C10: the bridge finalization matcher emits exactly the destination-range
finalization events whose message hash is the hash of some in-window
initiation with strictly positive value; zero-value initiations never admit
a finalization and unmatched finalizations are dropped without error. -/
theorem claim_C10 (initiations : List InitiationEvent) (l2Log : List FinalizationEvent) :
    (queryL2BridgeFinalizationEvents initiations l2Log).map
        (fun m => (m.blockNumber, m.txnIndex, m.logIndex)) =
      (l2Log.filter (fun f => initiations.any
          (fun i => decide (0 < i.value) && i.messageHash == f.messageHash))).map
        (fun f => (f.blockNumber, f.txnIndex, f.logIndex)) := by
  unfold queryL2BridgeFinalizationEvents
  by_cases hempty : initiations.isEmpty
  · rw [if_pos hempty]
    rw [List.isEmpty_iff] at hempty
    subst hempty
    simp
  rw [if_neg hempty]
  rw [List.map_filterMap]
  have hfilter : l2Log.filter (fun e =>
      ((initiations.filter (fun i => decide (0 < i.value))).map
        (fun i => i.messageHash)).contains e.messageHash) =
      l2Log.filter (fun f => initiations.any
        (fun i => decide (0 < i.value) && i.messageHash == f.messageHash)) := by
    exact List.filter_congr (fun x _ => contains_positive_hash initiations x.messageHash)
  rw [hfilter]
  apply filterMap_eq_map_of_mem
  intro f hf
  rw [List.mem_filter] at hf
  obtain ⟨-, hany⟩ := hf
  simp only [List.any_eq_true, Bool.and_eq_true, decide_eq_true_eq, beq_iff_eq] at hany
  obtain ⟨i, hi, -, hhash⟩ := hany
  have hfind : (initiations.find? (fun j => j.messageHash == f.messageHash)).isSome := by
    rw [List.find?_isSome]
    exact ⟨i, hi, by simp [hhash]⟩
  obtain ⟨j, hj⟩ := Option.isSome_iff_exists.mp hfind
  rw [hj]
  rfl

/-- Converting a nonnegative amount between decimal bases keeps it
nonnegative. -/
theorem convertDecimals_nonneg (fromDec toDec : Nat) (x : Int) (hx : 0 ≤ x) :
    0 ≤ convertDecimals fromDec toDec x := by
  unfold convertDecimals
  split
  · exact mul_nonneg hx (pow_nonneg (by norm_num) _)
  · exact Int.tdiv_nonneg hx (pow_nonneg (by norm_num) _)

/-- The effective balance of one l2 token is nonnegative when the external
balances and pending transfers are. -/
theorem getBalanceOnChainL2_nonneg (env : InvEnv) (chainId l1Token l2Token : Int)
    (hbal : ∀ c t, 0 ≤ env.balance c t)
    (htr : ∀ c l t, 0 ≤ env.outstandingTransfer c l t) :
    0 ≤ getBalanceOnChainL2 env chainId l1Token l2Token :=
  add_nonneg (convertDecimals_nonneg _ _ _ (hbal _ _)) (htr _ _ _)

/-- The per-chain effective balance is nonnegative when the external
balances and pending transfers are. -/
theorem getBalanceOnChain_nonneg (env : InvEnv) (chainId l1Token : Int)
    (hbal : ∀ c t, 0 ≤ env.balance c t)
    (htr : ∀ c l t, 0 ≤ env.outstandingTransfer c l t) :
    0 ≤ getBalanceOnChain env chainId l1Token := by
  unfold getBalanceOnChain aggregateOutstandingTransfer
  refine add_nonneg (List.sum_nonneg ?_) (List.sum_nonneg ?_)
  · intro x hx
    rw [List.mem_map] at hx
    obtain ⟨t, -, rfl⟩ := hx
    exact convertDecimals_nonneg _ _ _ (hbal _ _)
  · intro x hx
    rw [List.mem_map] at hx
    obtain ⟨t, -, rfl⟩ := hx
    exact htr _ _ _

/-- The effective balance of one tracked l2 token is at most the chain's
effective balance. -/
theorem getBalanceOnChainL2_le (env : InvEnv) (chainId l1Token l2Token : Int)
    (hbal : ∀ c t, 0 ≤ env.balance c t)
    (htr : ∀ c l t, 0 ≤ env.outstandingTransfer c l t)
    (hl2 : l2Token ∈ getRemoteTokensForL1Token env l1Token chainId) :
    getBalanceOnChainL2 env chainId l1Token l2Token ≤ getBalanceOnChain env chainId l1Token := by
  unfold getBalanceOnChainL2 getBalanceOnChain aggregateOutstandingTransfer
  refine add_le_add ?_ ?_
  · refine List.single_le_sum ?_ _ (List.mem_map_of_mem _ hl2)
    intro x hx
    rw [List.mem_map] at hx
    obtain ⟨t, -, rfl⟩ := hx
    exact convertDecimals_nonneg _ _ _ (hbal _ _)
  · refine List.single_le_sum ?_ _ (List.mem_map_of_mem _ hl2)
    intro x hx
    rw [List.mem_map] at hx
    obtain ⟨t, -, rfl⟩ := hx
    exact htr _ _ _

/-- The per-chain effective balance of an enabled chain is at most the
cumulative balance. -/
theorem getBalanceOnChain_le_cumulative (env : InvEnv) (chainId l1Token : Int)
    (hbal : ∀ c t, 0 ≤ env.balance c t)
    (htr : ∀ c l t, 0 ≤ env.outstandingTransfer c l t)
    (hmem : chainId ∈ env.chainIdList) :
    getBalanceOnChain env chainId l1Token ≤ getCumulativeBalance env l1Token := by
  unfold getCumulativeBalance
  refine List.single_le_sum ?_ _ (List.mem_map_of_mem _ hmem)
  intro x hx
  rw [List.mem_map] at hx
  obtain ⟨c, -, rfl⟩ := hx
  exact getBalanceOnChain_nonneg env c l1Token hbal htr

/-- Truncating division of `n * 10^18` by a cumulative total that bounds
`n` stays within `[0, 10^18]`. -/
theorem bnDiv_pct_bounds (n cum : Int) (h0 : 0 ≤ n) (h1 : n ≤ cum) (h2 : 0 < cum) :
    0 ≤ bnDiv (n * fixedPoint) cum ∧ bnDiv (n * fixedPoint) cum ≤ fixedPoint := by
  have hfp : (0 : Int) ≤ fixedPoint := by norm_num [fixedPoint]
  constructor
  · exact Int.tdiv_nonneg (mul_nonneg h0 hfp) (le_of_lt h2)
  · rw [bnDiv, Int.tdiv_eq_ediv (mul_nonneg h0 hfp) (le_of_lt h2)]
    calc (n * fixedPoint) / cum
        ≤ (cum * fixedPoint) / cum :=
          Int.ediv_le_ediv h2 (mul_le_mul_of_nonneg_right h1 hfp)
      _ = fixedPoint := Int.mul_ediv_cancel_left _ (ne_of_gt h2)

/-- C1 (amended): `getCurrentAllocationPct` is 0 when the cumulative balance
is 0; when the cumulative balance is non-zero, the percentage lies in
`[0, 10^18]` provided the external balances and pending transfers are
nonnegative, the chain is enabled, the l2 token is tracked for the l1
token, and the chain's shortfall does not exceed the effective balance of
`(chain, l2 token)` (a shortfall above the effective balance drives the
percentage negative). -/
theorem claim_C1 (env : InvEnv) (l1Token chainId l2Token : Int)
    (hbal : ∀ c t, 0 ≤ env.balance c t)
    (htr : ∀ c l t, 0 ≤ env.outstandingTransfer c l t)
    (hsf : 0 ≤ env.shortfall chainId l2Token)
    (hmem : chainId ∈ env.chainIdList)
    (hl2 : l2Token ∈ getRemoteTokensForL1Token env l1Token chainId)
    (hshort : convertDecimals (env.tokenDecimals l2Token chainId) (env.l1TokenDecimals l1Token)
        (env.shortfall chainId l2Token) ≤ getBalanceOnChainL2 env chainId l1Token l2Token) :
    (getCumulativeBalance env l1Token = 0 →
      getCurrentAllocationPct env l1Token chainId l2Token = 0) ∧
    (getCumulativeBalance env l1Token ≠ 0 →
      0 ≤ getCurrentAllocationPct env l1Token chainId l2Token ∧
        getCurrentAllocationPct env l1Token chainId l2Token ≤ fixedPoint) := by
  constructor
  · intro h
    simp [getCurrentAllocationPct, h]
  · intro h
    have hcumnn : 0 ≤ getCumulativeBalance env l1Token :=
      List.sum_nonneg (by
        intro x hx
        rw [List.mem_map] at hx
        obtain ⟨c, -, rfl⟩ := hx
        exact getBalanceOnChain_nonneg env c l1Token hbal htr)
    have hcumpos : 0 < getCumulativeBalance env l1Token := lt_of_le_of_ne hcumnn (Ne.symm h)
    have h0 : 0 ≤ getBalanceOnChainL2 env chainId l1Token l2Token -
        convertDecimals (env.tokenDecimals l2Token chainId) (env.l1TokenDecimals l1Token)
          (env.shortfall chainId l2Token) := sub_nonneg.mpr hshort
    have h1 : getBalanceOnChainL2 env chainId l1Token l2Token -
        convertDecimals (env.tokenDecimals l2Token chainId) (env.l1TokenDecimals l1Token)
          (env.shortfall chainId l2Token) ≤ getCumulativeBalance env l1Token := by
      refine le_trans (sub_le_self _ (convertDecimals_nonneg _ _ _ hsf)) ?_
      exact le_trans (getBalanceOnChainL2_le env chainId l1Token l2Token hbal htr hl2)
        (getBalanceOnChain_le_cumulative env chainId l1Token hbal htr hmem)
    have hb := bnDiv_pct_bounds _ _ h0 h1 hcumpos
    unfold getCurrentAllocationPct
    rw [if_neg h]
    exact hb

/-- Witness for C1 on a constant-balance environment. -/
theorem claim_C1_witness :
    (2 : Int) ∈ envC1W.chainIdList ∧ (50 : Int) ∈ getRemoteTokensForL1Token envC1W 40 2 ∧
      ((getCumulativeBalance envC1W 40 = 0 → getCurrentAllocationPct envC1W 40 2 50 = 0) ∧
        (getCumulativeBalance envC1W 40 ≠ 0 →
          0 ≤ getCurrentAllocationPct envC1W 40 2 50 ∧
            getCurrentAllocationPct envC1W 40 2 50 ≤ fixedPoint)) :=
  ⟨by decide, by decide,
    claim_C1 envC1W 40 2 50 (fun _ _ => (by norm_num : (0 : Int) ≤ 5))
      (fun _ _ _ => le_refl 0) (by decide) (by decide) (by decide) (by decide)⟩

set_option maxRecDepth 10000 in
/-- C1 counterexample: with a shortfall of 20 against an effective balance
of 10 on chain 2, the cumulative balance is 10 (non-zero) but the current
allocation percentage is negative, falsifying `0 ≤ pct`. -/
theorem claim_C1_counterexample :
    getCumulativeBalance envC1 40 ≠ 0 ∧ getCurrentAllocationPct envC1 40 2 50 < 0 := by
  constructor
  · decide
  · decide

/-- With origin repayment forced, the selector tail produces `[origin]` or
`[]` whenever it returns. -/
theorem determineRefundChainIdCore_force (env : InvEnv) (d : Deposit) (l1Token : Int)
    (l : List Int) (hforce : depositForcesOriginChainRepayment d = true)
    (h : determineRefundChainIdCore env d l1Token = .ok l) :
    l = [d.originChainId] ∨ l = [] := by
  simp only [determineRefundChainIdCore, bind, Except.bind, pure, Except.pure] at h
  rw [hforce] at h
  split at h
  · exact absurd h (by simp)
  split at h
  · exact absurd h (by simp)
  split at h
  · exact absurd h (by simp)
  next elig heqF =>
    split at h
    · right
      rw [Except.ok.injEq] at h
      exact h.symm
    next hcond =>
      split at h
      · next hcond2 =>
        simp at hcond2
      rw [Except.ok.injEq] at h
      subst h
      left
      simp only [ne_eq, true_and, not_or, not_not] at hcond
      obtain ⟨hlen, hmemelig⟩ := hcond
      rw [List.length_eq_one] at hlen
      obtain ⟨a, rfl⟩ := hlen
      simp only [List.contains_cons, List.contains_nil, Bool.or_false, beq_iff_eq] at hmemelig
      rw [hmemelig]

/-- C2: a lite-chain deposit whose origin cannot be quickly rebalanced is
repaid either exactly on its origin chain or not at all: every list that
`determineRefundChainId` returns (as opposed to throwing) is `[origin]` or
`[]`. -/
theorem claim_C2 (env : InvEnv) (d : Deposit) (l1TokenArg : Option Int) (l : List Int)
    (hlite : d.fromLiteChain = true)
    (hquick : env.quicklyRebalanced d = false)
    (h : determineRefundChainId env d l1TokenArg = .ok l) :
    l = [d.originChainId] ∨ l = [] := by
  have hforce : depositForcesOriginChainRepayment d = true := hlite
  have hcant : canTakeDestinationChainRepayment env d = false := by
    simp [canTakeDestinationChainRepayment, hforce]
  simp only [determineRefundChainId, bind, Except.bind, pure, Except.pure] at h
  split at h
  · right
    rw [Except.ok.injEq] at h
    exact h.symm
  rw [hforce] at h
  split at h
  · left
    rw [Except.ok.injEq] at h
    rw [← h]
    simp [hcant]
  split at h
  · exact absurd h (by simp)
  split at h
  · next hcond =>
    rw [hquick] at hcond
    simp at hcond
  split at h
  · next t =>
    exact determineRefundChainIdCore_force env d t l hforce h
  · split at h
    · next t _ =>
      exact determineRefundChainIdCore_force env d t l hforce h
    · exact absurd h (by simp)

/-- Witness for C2: a lite-chain deposit under disabled inventory
management is repaid on its origin chain. -/
theorem claim_C2_witness :
    depC2.fromLiteChain = true ∧ envC2.quicklyRebalanced depC2 = false ∧
      ([(42 : Int)] = [depC2.originChainId] ∨ [(42 : Int)] = ([] : List Int)) :=
  ⟨rfl, rfl, claim_C2 envC2 depC2 none [42] rfl rfl rfl⟩

/-- When origin repayment is not forced, the selector tail always ends with
the hub chain in the returned list. -/
theorem determineRefundChainIdCore_hub (env : InvEnv) (d : Deposit) (l1Token : Int)
    (l : List Int) (hforce : depositForcesOriginChainRepayment d = false)
    (h : determineRefundChainIdCore env d l1Token = .ok l) :
    env.hubChainId ∈ l := by
  simp only [determineRefundChainIdCore, bind, Except.bind, pure, Except.pure] at h
  rw [hforce] at h
  split at h
  · exact absurd h (by simp)
  split at h
  · exact absurd h (by simp)
  split at h
  · exact absurd h (by simp)
  next elig heqF =>
    split at h
    · next hcond =>
      exact absurd hcond.1 (by simp)
    next hcond1 =>
      split at h
      · rw [Except.ok.injEq] at h
        subst h
        simp
      · next hcond2 =>
        rw [Except.ok.injEq] at h
        subst h
        simp at hcond2
        exact hcond2

/-- C3 (amended): when inventory management is enabled, the deposit's
output token classification is valid and origin repayment is not forced,
every list returned by `determineRefundChainId` contains the hub chain
(appended as the final fallback when not already eligible).  With inventory
management disabled, or an invalid output token, the selector returns early
without the hub chain. -/
theorem claim_C3 (env : InvEnv) (d : Deposit) (l1TokenArg : Option Int) (l : List Int)
    (hforce : depositForcesOriginChainRepayment d = false)
    (hinv : isInventoryManagementEnabled env = true)
    (hvalid : env.invalidOutputToken d = false)
    (h : determineRefundChainId env d l1TokenArg = .ok l) :
    env.hubChainId ∈ l := by
  simp only [determineRefundChainId, bind, Except.bind, pure, Except.pure] at h
  rw [hvalid, hinv, hforce] at h
  simp only [Bool.false_eq_true, if_false, not_true, false_and, if_true, not_false_iff] at h
  split at h
  · exact absurd h (by simp)
  split at h
  · next t =>
    exact determineRefundChainIdCore_hub env d t l hforce h
  · split at h
    · next t _ =>
      exact determineRefundChainIdCore_hub env d t l hforce h
    · exact absurd h (by simp)

/-- Witness for C3: with token 40 enabled only on chain 5, the selector
returns exactly the hub fallback. -/
theorem claim_C3_witness :
    depositForcesOriginChainRepayment depC3 = false ∧
      isInventoryManagementEnabled envC3W = true ∧
      envC3W.invalidOutputToken depC3 = false ∧
      envC3W.hubChainId ∈ ([1] : List Int) :=
  ⟨rfl, rfl, rfl, claim_C3 envC3W depC3 (some 40) [1] rfl rfl rfl rfl⟩

/-- C3 counterexample: with inventory management disabled and a valid
destination route, the selector returns `[destination]` even though origin
repayment is not forced, and the hub chain (1) is absent. -/
theorem claim_C3_counterexample :
    determineRefundChainId envC3 depC3 none = .ok [77] ∧
      depositForcesOriginChainRepayment depC3 = false ∧
      envC3.hubChainId ∉ ([77] : List Int) := by
  refine ⟨rfl, rfl, ?_⟩
  decide

/-- C9 (amended): for an enabled non-hub `(l1Token, chainId, l2Token)` with
an excess-withdrawal period, a configured overage buffer passing the
discount assert, and a non-zero cumulative balance, a withdrawal of
`cumulativeBalanceInL2Decimals * (currentAllocPct - targetPct) / 10^18` is
planned iff the L2 bridge supports the token, the current allocation
percentage is at least the threshold
`targetPct * (targetOverageBuffer * 0.95e18 / 10^18) / 10^18` (two-stage
flooring, not a single division by `10^36`), and the per-period pending
withdrawal volume is still strictly under the cap
`(threshold - targetPct) * cumulativeBalanceInL2Decimals / 10^18` — the
current withdrawal is allowed even if it pushes total volume over the cap. -/
theorem claim_C9 (env : InvEnv) (l1Token chainId l2Token : Int) (cfg : TokenBalanceConfig)
    (buffer period : Int)
    (hcum : getCumulativeBalance env l1Token ≠ 0)
    (hhub : chainId ≠ env.hubChainId)
    (hen : l1TokenEnabledForChain env l1Token chainId = true)
    (hcfg : getTokenConfig env l1Token chainId (some l2Token) = .ok (some cfg))
    (hbuf : cfg.targetOverageBuffer = some buffer)
    (hper : cfg.withdrawExcessPeriod = some period)
    (hmult : fixedPoint ≤ bnDiv (buffer * (95 * 10 ^ 16)) fixedPoint) :
    evaluateExcessWithdrawal env l1Token chainId l2Token =
        .ok (some (bnDiv (convertDecimals (env.l1TokenDecimals l1Token)
            (env.tokenDecimals l2Token chainId) (getCumulativeBalance env l1Token) *
          (getCurrentAllocationPct env l1Token chainId l2Token - cfg.targetPct)) fixedPoint)) ↔
      (env.isSupportedL2Bridge chainId l1Token = true ∧
        bnDiv (cfg.targetPct * bnDiv (buffer * (95 * 10 ^ 16)) fixedPoint) fixedPoint ≤
          getCurrentAllocationPct env l1Token chainId l2Token ∧
        env.pendingWithdrawalAmount period chainId l2Token <
          bnDiv ((bnDiv (cfg.targetPct * bnDiv (buffer * (95 * 10 ^ 16)) fixedPoint) fixedPoint -
              cfg.targetPct) *
            convertDecimals (env.l1TokenDecimals l1Token) (env.tokenDecimals l2Token chainId)
              (getCumulativeBalance env l1Token)) fixedPoint) := by
  have h2 : ¬ (chainId = env.hubChainId ∨ ¬ l1TokenEnabledForChain env l1Token chainId = true) := by
    simp [hhub, hen]
  simp only [evaluateExcessWithdrawal, bind, Except.bind, pure, Except.pure, hcfg, hbuf, hper,
    if_neg hcum, if_neg h2]
  rw [if_neg (not_not_intro hmult)]
  by_cases hbr : env.isSupportedL2Bridge chainId l1Token = true
  · by_cases hsho : bnDiv (cfg.targetPct * bnDiv (buffer * 950000000000000000) fixedPoint)
        fixedPoint ≤ getCurrentAllocationPct env l1Token chainId l2Token
    · by_cases hpend : env.pendingWithdrawalAmount period chainId l2Token <
          bnDiv ((bnDiv (cfg.targetPct * bnDiv (buffer * 950000000000000000) fixedPoint)
              fixedPoint - cfg.targetPct) *
            convertDecimals (env.l1TokenDecimals l1Token) (env.tokenDecimals l2Token chainId)
              (getCumulativeBalance env l1Token)) fixedPoint
      · have h3 := not_lt.mpr hsho
        have h4 := not_le.mpr hpend
        simp [hbr, hsho, hpend, h3, h4]
      · have h4 := not_lt.mp hpend
        simp [hbr, hsho, hpend, h4, not_lt.mpr hsho]
    · have h3 := not_le.mp hsho
      simp [hbr, hsho, h3]
  · simp [hbr]

set_option maxRecDepth 10000 in
/-- Witness for C9 on `envC9`: chain 2 at 380% allocation against a
two-stage-floored threshold of 380%. -/
theorem claim_C9_witness :
    getCumulativeBalance envC9 40 ≠ 0 ∧ (2 : Int) ≠ envC9.hubChainId ∧
      (evaluateExcessWithdrawal envC9 40 2 50 =
          .ok (some (bnDiv (convertDecimals (envC9.l1TokenDecimals 40)
              (envC9.tokenDecimals 50 2) (getCumulativeBalance envC9 40) *
            (getCurrentAllocationPct envC9 40 2 50 - cfgC9.targetPct)) fixedPoint)) ↔
        (envC9.isSupportedL2Bridge 2 40 = true ∧
          bnDiv (cfgC9.targetPct * bnDiv ((2 * 10 ^ 18 + 1) * (95 * 10 ^ 16)) fixedPoint)
              fixedPoint ≤ getCurrentAllocationPct envC9 40 2 50 ∧
          envC9.pendingWithdrawalAmount 86400 2 50 <
            bnDiv ((bnDiv (cfgC9.targetPct * bnDiv ((2 * 10 ^ 18 + 1) * (95 * 10 ^ 16))
                fixedPoint) fixedPoint - cfgC9.targetPct) *
              convertDecimals (envC9.l1TokenDecimals 40) (envC9.tokenDecimals 50 2)
                (getCumulativeBalance envC9 40)) fixedPoint)) :=
  ⟨by decide, by decide,
    claim_C9 envC9 40 2 50 cfgC9 (2 * 10 ^ 18 + 1) 86400 (by decide) (by decide) (by decide)
      rfl rfl rfl (by decide)⟩

set_option maxRecDepth 10000 in
/-- C9 counterexample: the code plans a withdrawal of 18 units on chain 2
although the current allocation percentage (380%) is strictly below the
claimed threshold `targetPct * targetOverageBuffer * 0.95 / 10^36`
(380% + 1 wei of percentage): the claimed single-division threshold
formula does not govern the decision. -/
theorem claim_C9_counterexample :
    evaluateExcessWithdrawal envC9 40 2 50 = .ok (some 18) ∧
      getCurrentAllocationPct envC9 40 2 50 <
        bnDiv (cfgC9.targetPct * (2 * 10 ^ 18 + 1) * (95 * 10 ^ 16)) (10 ^ 36) :=
  ⟨rfl, by decide⟩

end Relayer
